import Mathlib

/-!
Shallow embedding of parts of the vidlu repository
(`vidlu/training/adversarial/attacks.py` and `vidlu/data/dataset.py`)
with theorems settling the specification claims about them.

Tensors are modelled as lists of rationals (a batch of scalar examples) or
lists of logit rows; Python errors are modelled with an explicit error type
returned through `Except`.
-/

namespace Vidlu

/-- Python exception kinds that the modelled code can raise. -/
inductive PErr where
  | runtimeError
  | typeError
  | notImplementedError
  | unboundLocalError
  | indexError
  | assertionError
  | valueError
  | zeroDivisionError
  deriving DecidableEq

/-! ## C1: the `_perturb` override guard in `Attack.__init__` (attacks.py 89-101)

The guard on line 91 is `type(self._perturb) == Attack._perturb`.
`self._perturb` is an attribute lookup that finds a plain function on the class
(the subclass's when overridden, otherwise `Attack`'s) and produces a bound
method; `type(...)` of a bound method is the builtin `method` type, whatever
function it wraps.  `Attack._perturb` is a plain function object.  The model
keeps just enough of Python's object model to evaluate this comparison. -/

/-- A minimal model of the Python values appearing in the line-91 guard:
class/type objects, plain function objects and bound-method objects,
identified by name. -/
inductive PyVal where
  | typeObj : String → PyVal
  | funcObj : String → PyVal
  | methodObj : String → PyVal
  deriving DecidableEq

/-- Python `type(v)` for the modelled values: every bound method has the
builtin `method` type, every plain function the builtin `function` type,
and every type object the builtin `type` type. -/
def pyType : PyVal → PyVal
  | .methodObj _ => .typeObj "method"
  | .funcObj _ => .typeObj "function"
  | .typeObj _ => .typeObj "type"

/-- Python `==` on these values: type objects, functions and bound methods
compare by identity (modelled by name equality within a kind); values of
different kinds are never equal (`type.__eq__` returns NotImplemented for a
non-type operand and comparison falls back to identity). -/
def pyEq : PyVal → PyVal → Bool
  | .typeObj a, .typeObj b => a == b
  | .funcObj a, .funcObj b => a == b
  | .methodObj a, .methodObj b => a == b
  | _, _ => false

/-- Attribute lookup `self._perturb` on an `Attack` instance: the function is
found on the subclass when it overrides `_perturb`, otherwise on `Attack`,
and either way the lookup yields a bound method. -/
def selfPerturbAttr (overridesPerturb : Bool) : PyVal :=
  .methodObj (if overridesPerturb then "Sub._perturb" else "Attack._perturb")

/-- The guard of attacks.py line 91: `type(self._perturb) == Attack._perturb`. -/
def attackInitGuard (overridesPerturb : Bool) : Bool :=
  pyEq (pyType (selfPerturbAttr overridesPerturb)) (.funcObj "Attack._perturb")

/-- `Attack.__init__` raises RuntimeError exactly when the line-91 guard is
true (attacks.py 91-94). -/
def attackInitRaisesRuntimeError (overridesPerturb : Bool) : Bool :=
  attackInitGuard overridesPerturb

/-! ## C2: label derivation in `Attack.perturb` (attacks.py 103-120, 18-31) -/

/-- Helper for `torch.max(out, dim=1)` index results: index of the first
maximum of a list (0 for the empty list). -/
def argmaxAux : List ℚ → ℕ → ℕ → ℚ → ℕ
  | [], _, best, _ => best
  | v :: t, i, best, bv =>
      if bv < v then argmaxAux t (i + 1) i v else argmaxAux t (i + 1) best bv

/-- Index of the first maximum of a logit row, as `torch.max(out, dim=1)[1]`
computes per example. -/
def argmaxIdx : List ℚ → ℕ
  | [] => 0
  | v :: t => argmaxAux t 1 0 v

/-- `_predict_hard` (attacks.py 18-31): runs the model under no-gradient mode
and takes the argmax over dimension 1 of the output.  An input is a batch;
the model maps it to one logit row per example. -/
def predict_hard (predict : List ℚ → List (List ℚ)) (x : List ℚ) : List ℕ :=
  (predict x).map argmaxIdx

/-- Number of required positional parameters of `_predict_hard`
(attacks.py line 18: `def _predict_hard(predict, x)`, no defaults). -/
def predict_hard_param_count : ℕ := 2

/-- Number of arguments supplied at the call site of attacks.py line 115:
`y = self.get_predicted_label(x)`.  The stored default attribute is the plain
function `_predict_hard` kept in the instance dictionary (line 99), so the
call does not bind `self` and supplies a single argument. -/
def perturb_label_call_arg_count : ℕ := 1

/-- The label-derivation step of `Attack.perturb` (attacks.py 114-115) with
the default `get_predicted_label`: when `y` is given it is used as is;
when `y` is `None` the code calls the stored `_predict_hard` with one
argument although it has two required parameters, which Python rejects with
a TypeError before any prediction happens. -/
def attack_perturb_derive_y (predict : List ℚ → List (List ℚ)) (x : List ℚ)
    (y : Option (List ℕ)) : Except PErr (List ℕ) :=
  match y with
  | some yy => .ok yy
  | none =>
      if perturb_label_call_arg_count == predict_hard_param_count then
        .ok (predict_hard predict x)
      else
        .error .typeError

/-! ## C10: the two success predicates (attacks.py 55-60) -/

/-- `classification_untargeted_is_sucess` (attacks.py 55-56):
`pred.argmax(dim=1) != label`, elementwise over the batch. -/
def classification_untargeted_is_sucess (pred : List (List ℚ)) (label : List ℕ) :
    List Bool :=
  List.zipWith (fun p y => decide (argmaxIdx p ≠ y)) pred label

/-- `classification_targeted_is_sucess` (attacks.py 59-60): the body is
textually identical to the untargeted variant,
`pred.argmax(dim=1) != label`. -/
def classification_targeted_is_sucess (pred : List (List ℚ)) (label : List ℕ) :
    List Bool :=
  List.zipWith (fun p y => decide (argmaxIdx p ≠ y)) pred label

/-- What a targeted success test would compute if it tested equality of the
prediction with the target label; stated from the claim's words only, for
comparison with the implementation. -/
def targeted_is_success_equality_test (pred : List (List ℚ)) (label : List ℕ) :
    List Bool :=
  List.zipWith (fun p y => decide (argmaxIdx p = y)) pred label

/-! ## C3: `Dataset.identifier` and `Dataset.permute` (dataset.py 91-98, 198-201) -/

/-- The identity-relevant attributes of a `Dataset`: `name`, optional
`subset`, and the ordered `modifiers` chain (dataset.py 62-80). -/
structure DatasetId where
  name : String
  subset : Option String
  modifiers : List String
  deriving DecidableEq

/-- `Dataset.identifier` (dataset.py 91-98): `name`, then `-subset` when a
subset is set, then `.`-joined modifiers when there are any. -/
def identifier (d : DatasetId) : String :=
  let fn := d.name
  let fn := match d.subset with
    | some s => fn ++ "-" ++ s
    | none => fn
  if d.modifiers.length > 0 then fn ++ "." ++ String.intercalate "." d.modifiers
  else fn

/-- The modifier string recorded by `Dataset.permute` (dataset.py 201):
the source passes the plain string literal `"permute({seed})"` — it lacks an
f-prefix, so the seed is not interpolated and the recorded modifier is the
same for every seed. -/
def permuteModifier (_seed : ℕ) : String := "permute({seed})"

/-- `Dataset.permute` (dataset.py 198-201) at the identity level: the
resulting `SubDataset` inherits `name` and `subset` from the wrapped dataset
and appends the permute modifier to its modifier chain
(`Dataset.__init__`, dataset.py 65-80). -/
def permuteId (d : DatasetId) (seed : ℕ) : DatasetId :=
  { d with modifiers := d.modifiers ++ [permuteModifier seed] }

/-! ## C8: `SampleDataset.__init__` (dataset.py 478-498) -/

/-- Construction-time control flow of `SampleDataset.__init__`
(dataset.py 481-498).  The drawn index values come from the numpy RNG and are
abstracted away; what is modelled is the rebinding
`length = length or len(dataset)`, the assert, the replace branch, the
(unreachable) ValueError branch, and the recorded `_len`
(`self._len = length or len(dataset)`, line 498).  Returns the recorded
length or the raised error. -/
def sample_dataset_init (dsLen : ℕ) (length? : Option ℕ) (replace : Bool) :
    Except PErr ℕ :=
  let len1 := match length? with
    | none => dsLen
    | some l => if l == 0 then dsLen else l
  if replace = true ∨ len1 ≤ dsLen then
    if replace then .ok (if len1 == 0 then dsLen else len1)
    else if dsLen < len1 then .error .valueError
    else .ok (if len1 == 0 then dsLen else len1)
  else .error .assertionError

/-! ## C9: `HDDCacheDataset._get_example_or_field` (dataset.py 392-409) -/

/-- Content of one cache file: either a value that deserializes, or a corrupt
blob whose `pickle.load` fails. -/
inductive CacheBlob (V : Type) where
  | good : V → CacheBlob V
  | corrupt : CacheBlob V
  deriving DecidableEq

/-- A directory of cache files: a map from paths to file contents. -/
def FS (V : Type) := String → Option (CacheBlob V)

/-- `os.remove`: delete one path. -/
def fsRemove {V : Type} (fs : FS V) (p : String) : FS V :=
  fun q => if q = p then none else fs q

/-- Writing (pickling) one file. -/
def fsWrite {V : Type} (fs : FS V) (p : String) (b : CacheBlob V) : FS V :=
  fun q => if q = p then some b else fs q

/-- `HDDCacheDataset._get_cache_path` (dataset.py 392-394):
`{cache_dir}/{idx}_{field}.p` when a (truthy) field is given, else
`{cache_dir}/{idx}.p`. -/
def get_cache_path (cacheDir : String) (idx : ℕ) (field : Option String) : String :=
  let path := cacheDir ++ "/" ++ toString idx
  match field with
  | some f => if f = "" then path ++ ".p" else path ++ "_" ++ f ++ ".p"
  | none => path ++ ".p"

/-- `HDDCacheDataset._get_example_or_field` (dataset.py 396-409): if the cache
file exists, try to load it and return the value; on any load failure the
bare `except:` deletes just that file; after a miss or a repaired corruption,
the example (or its field) is recomputed from the wrapped dataset, written to
the cache, and returned.  `data` is the wrapped dataset (`self.data[idx]`) and
`getField` the field projection (`example[field]`).  Returns the value and
the file system after the call. -/
def get_example_or_field (V : Type) (data : ℕ → V) (getField : V → String → V)
    (cacheDir : String) (fs : FS V) (idx : ℕ) (field : Option String) :
    V × FS V :=
  let path := get_cache_path cacheDir idx field
  match fs path with
  | some (.good v) => (v, fs)
  | some .corrupt =>
      let fs1 := fsRemove fs path
      let ex := match field with
        | none => data idx
        | some f => getField (data idx) f
      (ex, fsWrite fs1 path (.good ex))
  | none =>
      let ex := match field with
        | none => data idx
        | some f => getField (data idx) f
      (ex, fsWrite fs path (.good ex))

/-! ## C4, C5, C6: `perturb_iterative` (attacks.py 186-288)

The batch is a list of rational scalars (one coordinate per example); the
model is an elementwise function `predict`, and the gradient of the summed
loss with respect to one example's delta is an abstract function
`gradFn (x_i + delta_i) y_i` of that example alone (the loss has
`reduction='sum'`, so per-example gradients are independent).  `delta.grad`
accumulates across iterations of the same working tensor — line 273 zeroes the
clone `grad`, not `delta.grad` — so the model carries an accumulator that is
reset only when filtering creates a fresh tensor. -/

/-- The order `p` of the perturbation ball: `np.inf`, 1, 2, or any other
value (the final `else` branch of attacks.py 270-271). -/
inductive PNorm where
  | inf
  | one
  | two
  | other : ℚ → PNorm
  deriving DecidableEq

/-- The `grad_preprocessing` modes of attacks.py 215-218: `'sign'` takes the
gradient sign, `'normalize'` divides by the p-norm (for a scalar example the
p-norm is the absolute value for every p). -/
inductive GradPrep where
  | sign
  | normalize
  deriving DecidableEq

/-- `torch.sign` on a rational. -/
def signQ (g : ℚ) : ℚ := if 0 < g then 1 else if g < 0 then -1 else 0

/-- Apply the configured gradient preprocessing to one coordinate. -/
def gradPrepApply : GradPrep → ℚ → ℚ
  | .sign, g => signQ g
  | .normalize, g => g / |g|

/-- Minimum of two rationals, written out so that it computes. -/
def minQ (a b : ℚ) : ℚ := if a ≤ b then a else b

/-- Maximum of two rationals, written out so that it computes. -/
def maxQ (a b : ℚ) : ℚ := if a ≤ b then b else a

/-- `torch.clamp(v, lo, hi)`: `min(max(v, lo), hi)`. -/
def clampQ (lo hi v : ℚ) : ℚ := minQ (maxQ v lo) hi

/-- Clamp a whole batch into optional clip bounds (`torch.clamp(x, *bounds)`
when bounds are given, identity when they are `None`). -/
def applyClip : Option (ℚ × ℚ) → List ℚ → List ℚ
  | none, l => l
  | some b, l => l.map (fun v => clampQ b.1 b.2 v)

/-- Modelled from the spec: `ops.batch.project_to_p_ball` is not among the
sources; for the infinity norm the spec states that projection onto the
eps-ball is a per-coordinate clamp to `[-eps, eps]`. -/
def project_to_linf_ball (eps d : ℚ) : ℚ := clampQ (-eps) eps d

/-- Elementwise sum of two batches (`x + delta`). -/
def addLists (a b : List ℚ) : List ℚ := List.zipWith (fun u v => u + v) a b

/-- Boolean-mask indexing `t[mask]`: keep the entries whose mask is true. -/
def filterMask {α : Type} (mask : List Bool) (l : List α) : List α :=
  (List.zip mask l).foldr (fun p acc => if p.1 then p.2 :: acc else acc) []

/-- Configuration of one `perturb_iterative` call (attacks.py 186-187):
everything except the tensors `x`, `y` and `delta_init`. -/
structure IterCfg where
  predict : ℚ → ℚ
  gradFn : ℚ → ℚ → ℚ
  stepCount : ℕ
  eps : ℚ
  stepSize : ℚ
  gradPrep : GradPrep
  p : PNorm
  clipBounds : Option (ℚ × ℚ)
  isSuccess : Option (ℚ → ℚ → Bool)

/-- One record per pruning event of attacks.py 240-251 (an iteration whose
success check found at least one successful example): the `origin` indices
before filtering, the success mask over the working batch, and the working
delta as it was at the check (`delta[fail]` is cloned before the update, so
these are the values that made the successful examples successful; they are
also the final values of the previously appended delta tensor, which is
mutated in place until this event). -/
structure ShrinkEvent where
  originBefore : List ℕ
  success : List Bool
  deltaPre : List ℚ

/-- The mutable loop state of attacks.py 220-254: the working batch `x`, `y`,
`delta`, its accumulated `delta.grad`, the `origin` indices of the working
examples, and the recorded pruning events. -/
structure LoopState where
  x : List ℚ
  y : List ℚ
  delta : List ℚ
  gradAcc : List ℚ
  origin : List ℕ
  events : List ShrinkEvent

/-- The projection step of attacks.py 256-271: preprocess the gradient, and
for the infinity norm add the scaled step, project onto the eps-ball and
re-project into the clip bounds; for p in {1, 2} and for any other p the code
raises NotImplementedError before touching `delta`. -/
def updateDelta (cfg : IterCfg) (x delta grad : List ℚ) : Except PErr (List ℚ) :=
  let pgrad := grad.map (gradPrepApply cfg.gradPrep)
  match cfg.p with
  | .inf =>
      let d1 := List.zipWith (fun d g => d + g * cfg.stepSize) delta pgrad
      let d2 := d1.map (project_to_linf_ball cfg.eps)
      let d3 := match cfg.clipBounds with
        | none => d2
        | some b => List.zipWith (fun xi di => clampQ b.1 b.2 (xi + di) - xi) x d2
      .ok d3
  | .one => .error .notImplementedError
  | .two => .error .notImplementedError
  | .other _ => .error .notImplementedError

/-- The `for step in range(step_count)` loop of attacks.py 232-275.  Returns
whether the loop ended with `break`, the number of executed iterations, and
the final state.  `delta0Len` is the length of the initial delta
(`len(deltas[0])`): when early stopping is on, `update_times` divides by it
at the end of every iteration and at the break, so a zero value raises
ZeroDivisionError there. -/
def perturbLoop (cfg : IterCfg) (delta0Len : ℕ) :
    ℕ → LoopState → ℕ → Except PErr (Bool × ℕ × LoopState)
  | 0, st, iters => .ok (false, iters, st)
  | fuel + 1, st, iters =>
      let xd := addLists st.x st.delta
      let pred := xd.map cfg.predict
      let gradAcc1 := addLists st.gradAcc (List.zipWith cfg.gradFn xd st.y)
      let grad := gradAcc1
      match cfg.isSuccess with
      | some isS =>
          let success := List.zipWith isS pred st.y
          let fail := success.map not
          if fail.all id then
            match updateDelta cfg st.x st.delta grad with
            | .error e => .error e
            | .ok delta1 =>
                if delta0Len == 0 then .error .zeroDivisionError
                else perturbLoop cfg delta0Len fuel
                  { st with delta := delta1, gradAcc := gradAcc1 } (iters + 1)
          else
            let ev : ShrinkEvent := ⟨st.origin, success, st.delta⟩
            let x1 := filterMask fail st.x
            let y1 := filterMask fail st.y
            let delta1 := filterMask fail st.delta
            let grad1 := filterMask fail grad
            let origin1 := filterMask fail st.origin
            let events1 := st.events ++ [ev]
            if success.all id then
              if delta0Len == 0 then .error .zeroDivisionError
              else .ok (true, iters + 1,
                ⟨x1, y1, delta1, delta1.map (fun _ => 0), origin1, events1⟩)
            else
              match updateDelta cfg x1 delta1 grad1 with
              | .error e => .error e
              | .ok delta2 =>
                  if delta0Len == 0 then .error .zeroDivisionError
                  else perturbLoop cfg delta0Len fuel
                    ⟨x1, y1, delta2, delta2.map (fun _ => 0), origin1, events1⟩
                    (iters + 1)
      | none =>
          match updateDelta cfg st.x st.delta grad with
          | .error e => .error e
          | .ok delta1 =>
              perturbLoop cfg delta0Len fuel
                { st with delta := delta1, gradAcc := gradAcc1 } (iters + 1)

/-- `successes[-1].fill_(True)` (attacks.py 280): overwrite the success mask
of the last pruning event with all-true. -/
def forceLastEventTrue : List ShrinkEvent → List ShrinkEvent
  | [] => []
  | [e] => [{ e with success := e.success.map (fun _ => true) }]
  | e :: rest => e :: forceLastEventTrue rest

/-- One step of the write-back loop of attacks.py 283-285
(`delta[origins[i][successes[i+1]]] = deltas[i][successes[i+1]]`): for each
example of this event's working batch that succeeded here, write its recorded
delta into its original position. -/
def writeBackEvent (delta : List ℚ) (ev : ShrinkEvent) : List ℚ :=
  (List.zip ev.originBefore (List.zip ev.success ev.deltaPre)).foldl
    (fun acc p => if p.2.1 then acc.set p.1 p.2.2 else acc) delta

/-- `delta_init` handling of attacks.py 220:
`torch.zeros_like(x) if delta_init is None else delta_init`. -/
def initDelta (x : List ℚ) : Option (List ℚ) → List ℚ
  | none => x.map (fun _ => 0)
  | some d => d

/-- The success mask computed at the first iteration's check
(attacks.py 235, 242): the configured predicate applied elementwise to
`predict(x + delta_init)` and `y`; empty when early stopping is off. -/
def firstSuccessMask (cfg : IterCfg) (x y : List ℚ) (dInit : Option (List ℚ)) :
    List Bool :=
  match cfg.isSuccess with
  | none => []
  | some isS =>
      List.zipWith isS ((addLists x (initDelta x dInit)).map cfg.predict) y

/-- `perturb_iterative` (attacks.py 186-288).  The result's first component
counts the executed loop iterations (to state termination claims); the second
is the returned batch.  After the loop, the `for`-`else` clause executes
`step += 1`; when `step_count` is 0 the loop body never ran, `step` is an
unbound local and Python raises UnboundLocalError.  With early stopping on,
`successes[-1]` raises IndexError when no pruning event ever happened;
otherwise the last event's mask is overwritten with all-true, the original
`x` and the initial delta tensor are restored (`xs.pop(0), deltas.pop(0)` —
the initial delta tensor was mutated in place until the first event, so it
holds the first event's pre-filter values), the later events' successful
values are scattered back, and `x + delta` is clamped into the clip bounds. -/
def perturb_iterative (cfg : IterCfg) (x y : List ℚ)
    (deltaInit : Option (List ℚ)) : Except PErr (ℕ × List ℚ) :=
  let delta0 := initDelta x deltaInit
  let st0 : LoopState :=
    ⟨x, y, delta0, delta0.map (fun _ => 0), List.range x.length, []⟩
  match perturbLoop cfg delta0.length cfg.stepCount st0 0 with
  | .error e => .error e
  | .ok (broke, iters, st) =>
      if !broke && cfg.stepCount == 0 then .error .unboundLocalError
      else
        match cfg.isSuccess with
        | none => .ok (iters, applyClip cfg.clipBounds (addLists st.x st.delta))
        | some _ =>
            match forceLastEventTrue st.events with
            | [] => .error .indexError
            | e0 :: rest =>
                .ok (iters, applyClip cfg.clipBounds
                  (addLists x (rest.foldl writeBackEvent e0.deltaPre)))

/-! ## C7: `CarliniWagnerL2Attack.__init__` (attacks.py 355-389, 335-336) -/

/-- Number of required positional parameters of `get_carlini_loss`
(attacks.py line 335: `def get_carlini_loss(targeted, confidence_threshold)`,
no defaults). -/
def get_carlini_loss_param_count : ℕ := 2

/-- Number of arguments supplied at the call site of attacks.py line 376:
`loss = loss or get_carlini_loss()`. -/
def carlini_loss_call_arg_count : ℕ := 0

/-- `CarliniWagnerL2Attack.__init__` (attacks.py 372-388): a user-provided
loss raises NotImplementedError; otherwise `loss` is `None`, so
`loss or get_carlini_loss()` always evaluates `get_carlini_loss()` — a call
with zero arguments to a function with two required parameters, which Python
rejects with a TypeError.  Were the call well formed, construction would
record `binary_search_steps`, `max_iter` and
`repeat = binary_search_steps >= REPEAT_STEP` (REPEAT_STEP = 10). -/
def carlini_wagner_init (lossProvided : Bool)
    (binary_search_steps max_iter : ℕ) : Except PErr (ℕ × ℕ × Bool) :=
  if lossProvided then .error .notImplementedError
  else if carlini_loss_call_arg_count == get_carlini_loss_param_count then
    .ok (binary_search_steps, max_iter, decide (binary_search_steps ≥ 10))
  else .error .typeError

/-! ## Helper lemmas -/

/-- A pointwise-true predicate zipped over any two lists yields an all-true
mask. -/
theorem zipWith_all_id {α β : Type} (s : α → β → Bool) (h : ∀ a b, s a b = true) :
    ∀ (l1 : List α) (l2 : List β), (List.zipWith s l1 l2).all id = true
  | [], _ => rfl
  | _ :: _, [] => rfl
  | a :: l1, b :: l2 => by
      simp only [List.zipWith, List.all_cons, h, zipWith_all_id s h l1 l2,
        Bool.and_self, id]

/-- Negating a nonempty all-true mask yields a mask that is not all-true. -/
theorem map_not_all_false {l : List Bool} (hne : l ≠ []) (h : l.all id = true) :
    (l.map not).all id = false := by
  cases l with
  | nil => exact absurd rfl hne
  | cons a t =>
      simp only [List.all_cons, id, Bool.and_eq_true] at h
      simp [List.all_cons, h.1]

/-! ## Claim theorems -/

/-- C1: the spec says a subclass that does not override `_perturb` makes
`Attack.__init__` raise RuntimeError.  The code's guard
`type(self._perturb) == Attack._perturb` compares the builtin `method` type
with a function object and is false for every subclass, overriding or not,
so the constructor never raises — the code contradicts its own error
message's intent. -/
theorem c1_perturb_override_guard_never_fires (overridesPerturb : Bool) :
    attackInitRaisesRuntimeError overridesPerturb = false := by
  cases overridesPerturb <;> rfl

/-- C2: the spec says `perturb(x)` with the label omitted derives it by a
no-gradient hard prediction.  The code calls the stored two-parameter
function `_predict_hard` with a single argument, so the derivation raises
TypeError for every model and input instead of producing a label. -/
theorem c2_default_label_derivation_raises_type_error
    (predict : List ℚ → List (List ℚ)) (x : List ℚ) :
    attack_perturb_derive_y predict x none = .error .typeError := rfl

/-- C3: the spec says permute views built with two different seeds never
yield the same identifier except through the documented index-subset hashing
scheme.  The permute modifier is the uninterpolated literal
`"permute({seed})"`, so the identifiers of seed-1 and seed-2 permutations of
the same dataset coincide exactly, with no hashing involved. -/
theorem c3_permute_identifier_collision :
    identifier (permuteId ⟨"cifar", some "train", []⟩ 1)
      = identifier (permuteId ⟨"cifar", some "train", []⟩ 2)
    ∧ identifier (permuteId ⟨"cifar", some "train", []⟩ 1)
      = "cifar-train.permute({seed})" :=
  ⟨rfl, rfl⟩

/-- C4 counterexample: the claim says every call with p in {1, 2} and
step_count ≥ 1 fails with a not-implemented error.  With early stopping
enabled and a success predicate that accepts every example, the first
iteration's success check breaks out of the loop before the projection
branch is reached, and the call returns normally after one iteration. -/
theorem c4_early_stop_counterexample :
    perturb_iterative
      { predict := id, gradFn := fun _ _ => 0, stepCount := 1, eps := 1,
        stepSize := 1, gradPrep := .sign, p := .two, clipBounds := some (0, 1),
        isSuccess := some (fun _ _ => true) }
      [0] [0] none = .ok (1, [0]) := by
  simp [perturb_iterative, perturbLoop, updateDelta, addLists, initDelta,
    filterMask, forceLastEventTrue, writeBackEvent, applyClip, clampQ, minQ,
    maxQ, signQ, gradPrepApply, firstSuccessMask, zero_le_one]

/-- C4 amended: with p in {1, 2} and step_count ≥ 1, unless early stopping
removes every example as successful at the first check, the call fails with
NotImplementedError at the first projection step, so no incorrect projection
is ever applied. -/
theorem c4_not_implemented_for_p12 (cfg : IterCfg) (x y : List ℚ)
    (dInit : Option (List ℚ))
    (hp : cfg.p = PNorm.one ∨ cfg.p = PNorm.two)
    (hstep : 1 ≤ cfg.stepCount)
    (hstop : cfg.isSuccess = none
      ∨ (firstSuccessMask cfg x y dInit).all id = false) :
    perturb_iterative cfg x y dInit = .error .notImplementedError := by
  obtain ⟨k, hk⟩ : ∃ k, cfg.stepCount = k + 1 := ⟨cfg.stepCount - 1, by omega⟩
  have hupd : ∀ a b c, updateDelta cfg a b c = .error .notImplementedError := by
    intro a b c
    rcases hp with h | h <;> simp [updateDelta, h]
  rcases hstop with hnone | hmask
  · simp [perturb_iterative, hk, perturbLoop, hnone, hupd]
  · cases hIs : cfg.isSuccess with
    | none => simp [perturb_iterative, hk, perturbLoop, hIs, hupd]
    | some s =>
        simp only [firstSuccessMask, hIs] at hmask
        cases hfb : ((List.zipWith s ((addLists x (initDelta x dInit)).map
            cfg.predict) y).map not).all id with
        | true => simp [perturb_iterative, hk, perturbLoop, hIs, hfb, hupd]
        | false => simp [perturb_iterative, hk, perturbLoop, hIs, hfb, hmask, hupd]

/-- C4 amended witness: a concrete call with p = 1, one step and early
stopping off fails with NotImplementedError. -/
theorem c4_not_implemented_for_p12_witness :
    perturb_iterative
      { predict := id, gradFn := fun _ _ => 1, stepCount := 1, eps := 1,
        stepSize := 1, gradPrep := .sign, p := .one, clipBounds := some (0, 1),
        isSuccess := none }
      [0] [0] none = .error .notImplementedError :=
  c4_not_implemented_for_p12
    { predict := id, gradFn := fun _ _ => 1, stepCount := 1, eps := 1,
      stepSize := 1, gradPrep := .sign, p := .one, clipBounds := some (0, 1),
      isSuccess := none }
    [0] [0] none (Or.inl rfl) (by decide) (Or.inl rfl)

/-- C5: the spec says a call with step_count = 0 returns the input with the
initial delta applied once and clipped, without raising.  With step_count = 0
the loop body never runs, the `for`-`else` clause executes `step += 1` on the
never-bound local `step`, and the call raises UnboundLocalError instead of
returning. -/
theorem c5_step_count_zero_unbound_local :
    perturb_iterative
      { predict := id, gradFn := fun _ _ => 0, stepCount := 0, eps := 1,
        stepSize := 1, gradPrep := .sign, p := .inf, clipBounds := some (0, 1),
        isSuccess := none }
      [0] [0] none = .error .unboundLocalError := rfl

/-- C6: with early stopping enabled, a success predicate that accepts every
example, a nonempty batch and step_count ≥ 1, the iterative optimizer
terminates after exactly one iteration — at the first success check — and
returns the clipped input plus the initial delta. -/
theorem c6_always_successful_stops_after_one_step (cfg : IterCfg) (x y : List ℚ)
    (dInit : Option (List ℚ)) (s : ℚ → ℚ → Bool)
    (hx : x ≠ []) (hy : y.length = x.length)
    (hd : (initDelta x dInit).length = x.length)
    (hstep : 1 ≤ cfg.stepCount) (hIs : cfg.isSuccess = some s)
    (hs : ∀ a b, s a b = true) :
    perturb_iterative cfg x y dInit
      = .ok (1, applyClip cfg.clipBounds (addLists x (initDelta x dInit))) := by
  obtain ⟨k, hk⟩ : ∃ k, cfg.stepCount = k + 1 := ⟨cfg.stepCount - 1, by omega⟩
  have hSall :
      (List.zipWith s ((addLists x (initDelta x dInit)).map cfg.predict) y).all id
        = true :=
    zipWith_all_id s hs _ _
  have hSlen :
      (List.zipWith s ((addLists x (initDelta x dInit)).map cfg.predict) y).length
        = x.length := by
    simp [List.length_zipWith, List.length_map, addLists, hd, hy]
  have hSne :
      List.zipWith s ((addLists x (initDelta x dInit)).map cfg.predict) y ≠ [] := by
    intro hnil
    rw [hnil] at hSlen
    exact hx (List.length_eq_zero.mp hSlen.symm)
  have hfail :
      ((List.zipWith s ((addLists x (initDelta x dInit)).map cfg.predict) y).map
        not).all id = false :=
    map_not_all_false hSne hSall
  have hlen0 : ((initDelta x dInit).length == 0) = false := by
    simp only [hd, beq_eq_false_iff_ne, ne_eq, List.length_eq_zero]
    exact hx
  simp [perturb_iterative, hk, perturbLoop, hIs, hfail, hSall, hlen0,
    forceLastEventTrue]

/-- C6 witness: a concrete always-successful configuration with step_count 7
stops after one iteration. -/
theorem c6_always_successful_stops_after_one_step_witness :
    perturb_iterative
      { predict := id, gradFn := fun _ _ => 1, stepCount := 7, eps := 1,
        stepSize := 1, gradPrep := .sign, p := .inf, clipBounds := some (0, 1),
        isSuccess := some (fun _ _ => true) }
      [0] [0] none
      = .ok (1, applyClip (some (0, 1)) (addLists [0] (initDelta [0] none))) :=
  c6_always_successful_stops_after_one_step
    { predict := id, gradFn := fun _ _ => 1, stepCount := 7, eps := 1,
      stepSize := 1, gradPrep := .sign, p := .inf, clipBounds := some (0, 1),
      isSuccess := some (fun _ _ => true) }
    [0] [0] none (fun _ _ => true) (by simp) rfl rfl (by decide) rfl
    (fun _ _ => rfl)

/-- C7: the spec says the CW attack with binary_search_steps = 1 and
max_iter = 1 returns a same-shape tensor without raising.  Construction with
the default loss evaluates `loss or get_carlini_loss()`, a zero-argument call
to a function with two required parameters, so every construction — in
particular with binary_search_steps = 1 and max_iter = 1 — raises TypeError
and `_perturb` is never reachable. -/
theorem c7_cw_construction_raises_type_error (bss mi : ℕ) :
    carlini_wagner_init false bss mi = .error .typeError := rfl

/-- C8 counterexample: the claim says sampling more elements than the dataset
holds without replacement fails with a ValueError.  On a length-2 dataset,
requesting 3 without replacement fails with an AssertionError — a different
exception — because the assert on dataset.py line 483 fires before the
ValueError branch can be reached. -/
theorem c8_sample_raises_assertion_error_counterexample :
    sample_dataset_init 2 (some 3) false = .error .assertionError
    ∧ (Except.error PErr.assertionError : Except PErr ℕ)
        ≠ Except.error PErr.valueError :=
  ⟨rfl, fun h => PErr.noConfusion (Except.error.inj h)⟩

/-- C8 amended: for every dataset length and every requested length strictly
greater than it, `sample(length, replace=False)` fails at construction with
an AssertionError from `assert replace or length <= len(dataset)`; the
ValueError branch behind it is unreachable. -/
theorem c8_sample_raises_assertion_error (dsLen l : ℕ) (h : dsLen < l) :
    sample_dataset_init dsLen (some l) false = .error .assertionError := by
  have hl0 : (l == 0) = false := by
    simp only [beq_eq_false_iff_ne, ne_eq]
    omega
  unfold sample_dataset_init
  simp only [hl0, Bool.false_eq_true, if_false, false_or]
  rw [if_neg (by omega)]

/-- C8 amended witness: requesting 3 of 2 without replacement raises the
AssertionError. -/
theorem c8_sample_raises_assertion_error_witness :
    2 < 3 ∧ sample_dataset_init 2 (some 3) false = .error .assertionError :=
  ⟨by omega, c8_sample_raises_assertion_error 2 3 (by omega)⟩

/-- C9: reading an index whose single cache file is corrupt removes exactly
that file, recomputes the example (or field) from the wrapped dataset,
writes it back as the new file content, and returns the recomputed value; no
other path of the cache directory changes and no error escapes. -/
theorem c9_corrupt_file_self_healing {V : Type} (data : ℕ → V)
    (getField : V → String → V) (cacheDir : String) (fs : FS V) (idx : ℕ)
    (field : Option String)
    (hcorrupt : fs (get_cache_path cacheDir idx field) = some .corrupt) :
    (get_example_or_field V data getField cacheDir fs idx field).1
        = (match field with | none => data idx | some f => getField (data idx) f)
    ∧ (get_example_or_field V data getField cacheDir fs idx field).2
          (get_cache_path cacheDir idx field)
        = some (.good (match field with
            | none => data idx
            | some f => getField (data idx) f))
    ∧ ∀ q, q ≠ get_cache_path cacheDir idx field →
        (get_example_or_field V data getField cacheDir fs idx field).2 q
          = fs q := by
  cases field with
  | none =>
      refine ⟨?_, ?_, ?_⟩
      · simp [get_example_or_field, hcorrupt]
      · simp [get_example_or_field, hcorrupt, fsWrite]
      · intro q hq
        simp [get_example_or_field, hcorrupt, fsWrite, fsRemove, hq]
  | some f =>
      refine ⟨?_, ?_, ?_⟩
      · simp [get_example_or_field, hcorrupt]
      · simp [get_example_or_field, hcorrupt, fsWrite]
      · intro q hq
        simp [get_example_or_field, hcorrupt, fsWrite, fsRemove, hq]

/-- C9 witness: a concrete corrupt file at index 3 is repaired and the
recomputed value 13 is returned. -/
theorem c9_corrupt_file_self_healing_witness :
    (get_example_or_field ℕ (fun i => i + 10) (fun v _ => v) "cache"
        (fun q => if q = "cache/3.p" then some CacheBlob.corrupt else none)
        3 none).1
      = 13 :=
  (c9_corrupt_file_self_healing (fun i => i + 10) (fun v _ => v) "cache"
      (fun q => if q = "cache/3.p" then some CacheBlob.corrupt else none)
      3 none (by rfl)).1

/-- C10: the targeted and untargeted classification success predicates are
the same function — both return `argmax(pred, dim=1) != label` — and the
targeted variant does not test equality of the prediction with the target
label (at `pred = [[0, 1]]`, `label = [0]` it differs from the equality
test). -/
theorem c10_targeted_equals_untargeted :
    (∀ pred label, classification_targeted_is_sucess pred label
        = classification_untargeted_is_sucess pred label)
    ∧ classification_targeted_is_sucess [[0, 1]] [0]
        ≠ targeted_is_success_equality_test [[0, 1]] [0] :=
  ⟨fun _ _ => rfl, by decide⟩

/-- C10 witness: the two predicates agree on a concrete two-example batch. -/
theorem c10_targeted_equals_untargeted_witness :
    classification_targeted_is_sucess [[0, 1], [5, 2]] [1, 1]
      = classification_untargeted_is_sucess [[0, 1], [5, 2]] [1, 1] :=
  c10_targeted_equals_untargeted.1 [[0, 1], [5, 2]] [1, 1]

end Vidlu
